import Mathlib

/-!
Shallow embedding of `src/bin/honeybee/src/render.rs` (MULTI markup
rendering for NTCIP 1203 message signs): the `RenderState` transition
function, the `PageSplitter` iterator and the `PageRenderer`.

Types consumed from the external `multi` and `raster` modules (not part
of `src/`) are modelled from the spec's interface description; every
such definition is marked `Modelled from the spec:` in its doc comment.
Machine integers (`u8`, `u16`, `u32`) are modelled as `Nat`; the only
place where wrap-around can matter (`r.x - 1` on a `u16`) is made
explicit via `wrapSub1`.
-/

/-- Modelled from the spec: a rectangle with 1-based (x, y) origin,
width and height (the `multi` module's `Rectangle` is not in `src/`). -/
structure Rectangle where
  x : Nat
  y : Nat
  w : Nat
  h : Nat
deriving DecidableEq

/-- Modelled from the spec: `contains` tests sub-rectangle inclusion. -/
def Rectangle.contains (self other : Rectangle) : Bool :=
  decide (self.x ≤ other.x ∧ other.x + other.w ≤ self.x + self.w ∧
          self.y ≤ other.y ∧ other.y + other.h ≤ self.y + self.h)

/-- Modelled from the spec: the NTCIP color schemes (the `multi`
module's `ColorScheme` is not in `src/`); the scheme is opaque
configuration for this core. -/
inductive ColorScheme where
  | Monochrome1Bit
  | Monochrome8Bit
  | ColorClassic
  | Color24Bit
deriving DecidableEq

/-- Modelled from the spec: a MULTI color value (the `multi` module's
`Color` is not in `src/`): a legacy palette index or an RGB triple. -/
inductive Color where
  | Legacy : Nat → Color
  | RGB : Nat → Nat → Nat → Color
deriving DecidableEq

/-- Modelled from the spec: page justification variants (the `multi`
module is not in `src/`). -/
inductive PageJustification where
  | Other
  | Top
  | Middle
  | Bottom
deriving DecidableEq

/-- Modelled from the spec: line justification variants (the `multi`
module is not in `src/`). -/
inductive LineJustification where
  | Other
  | Left
  | Center
  | Right
  | Full
deriving DecidableEq

/-- Modelled from the spec: the `multi` module's `SyntaxError` variants
used by this core (the module is not in `src/`). -/
inductive SyntaxError where
  | Other
  | UnsupportedTag : String → SyntaxError
  | UnsupportedTagValue
  | TextTooBig
deriving DecidableEq

/-- Modelled from the spec: the `multi` module's `Value` — one typed
MULTI token as produced by the external tokenizer.  The supported tags
are those of the spec's token table; `Flash`, `HexadecimalCharacter`
and `ManufacturerSpecific` stand for the explicitly unsupported tags
(`[f]`/`[fl]`, `[hc]`, `[ms]`/`[mv]`). -/
inductive Value where
  | ColorBackground : Option Color → Value
  | ColorForeground : Option Color → Value
  | Font : Option (Nat × Option Nat) → Value
  | JustificationLine : Option LineJustification → Value
  | JustificationPage : Option PageJustification → Value
  | NewLine : Option Nat → Value
  | NewPage : Value
  | PageBackground : Option Color → Value
  | PageTime : Option Nat → Option Nat → Value
  | SpacingCharacter : Nat → Value
  | SpacingCharacterEnd : Value
  | Text : String → Value
  | TextRectangle : Rectangle → Value
  | Flash : Value
  | HexadecimalCharacter : Nat → Value
  | ManufacturerSpecific : String → Value
deriving DecidableEq

/-- Modelled from the spec: the `Display` rendering of a token's tag,
used only for the `UnsupportedTag` error payload (the `multi` module's
`Display` impl is not in `src/`). -/
def Value.toString : Value → String
  | .Flash => "[fl]"
  | .HexadecimalCharacter _ => "[hc]"
  | .ManufacturerSpecific _ => "[ms]"
  | .NewPage => "[np]"
  | _ => ""

/-- Mirrors the `if let Value::NewPage() = v` pattern test of
`PageSplitter::make_page`. -/
def isNewPage : Value → Bool
  | .NewPage => true
  | _ => false

/-- Modelled from the spec: ASCII case folding of one character to its
lower-case code, used to model the tokenizer's case-insensitive
tag-name matching. -/
def lowerCode (c : Char) : Nat :=
  if 65 ≤ c.toNat ∧ c.toNat ≤ 90 then c.toNat + 32 else c.toNat

/-- Modelled from the spec: "Page-break token matching is
case-insensitive on tag name" — the external tokenizer maps a tag whose
name case-insensitively equals "np" to the page-break token. -/
def matchPageBreakTag (tag : String) : Option Value :=
  if tag.data.map lowerCode = "np".data.map lowerCode then
    some Value.NewPage
  else none

/-- Text render state (`RenderState` of `render.rs`). -/
structure RenderState where
  color_scheme : ColorScheme
  color_foreground : Color
  color_background : Color
  page_background : Color
  page_on_time_ds : Nat
  page_off_time_ds : Nat
  text_rectangle : Rectangle
  just_page : PageJustification
  just_line : LineJustification
  line_spacing : Option Nat
  char_spacing : Option Nat
  char_width : Nat
  char_height : Nat
  font : Nat × Option Nat
deriving DecidableEq

/-- Create a new render state (`RenderState::new`): the text-run
background initializes to the page background, the spacing overrides to
`None`. -/
def RenderState.new (color_scheme : ColorScheme) (color_foreground : Color)
    (page_background : Color) (page_on_time_ds page_off_time_ds : Nat)
    (text_rectangle : Rectangle) (just_page : PageJustification)
    (just_line : LineJustification) (char_width char_height : Nat)
    (font : Nat × Option Nat) : RenderState :=
  { color_scheme := color_scheme
    color_foreground := color_foreground
    color_background := page_background
    page_background := page_background
    page_on_time_ds := page_on_time_ds
    page_off_time_ds := page_off_time_ds
    text_rectangle := text_rectangle
    just_page := just_page
    just_line := just_line
    line_spacing := none
    char_spacing := none
    char_width := char_width
    char_height := char_height
    font := font }

/-- Check if the sign is a character-matrix (`char_width > 0`). -/
def RenderState.is_char_matrix (self : RenderState) : Bool :=
  decide (0 < self.char_width)

/-- Check if the sign is a full-matrix (`char_width == 0 && char_height == 0`). -/
def RenderState.is_full_matrix (self : RenderState) : Bool :=
  self.char_width == 0 && self.char_height == 0

/-- Wrapping `u16` decrement: models the source's `r.x - 1` on a `u16`
field (release-mode wrap-around semantics); for `1 ≤ n ≤ 65535` it is
plain subtraction by one. -/
def wrapSub1 (n : Nat) : Nat :=
  (n + 65535) % 65536

/-- Validate and apply a `[tr…]` tag (`RenderState::update_text_rectangle`):
the rectangle must be contained in the default state's text rectangle
and, when a character cell dimension is nonzero, be aligned to it. -/
def RenderState.update_text_rectangle (self : RenderState)
    (default_state : RenderState) (r : Rectangle) :
    Except SyntaxError RenderState :=
  if !(default_state.text_rectangle.contains r) then
    .error .UnsupportedTagValue
  else if 0 < self.char_width ∧
      (wrapSub1 r.x % self.char_width ≠ 0 ∨ r.w % self.char_width ≠ 0) then
    .error .UnsupportedTagValue
  else if 0 < self.char_height ∧
      (wrapSub1 r.y % self.char_height ≠ 0 ∨ r.h % self.char_height ≠ 0) then
    .error .UnsupportedTagValue
  else
    .ok { self with text_rectangle := r }

/-- Update the render state with a MULTI value (`RenderState::update`).
The Rust method mutates `self` in place and returns `Result<(), _>`;
since every arm performs its checks before any assignment, a failing
call leaves the state unchanged, which this embedding renders by
returning the error without a state. -/
def RenderState.update (self : RenderState) (default_state : RenderState)
    (v : Value) : Except SyntaxError RenderState :=
  match v with
  | .ColorBackground none =>
      .ok { self with color_background := default_state.color_background }
  | .ColorBackground (some c) => .ok { self with color_background := c }
  | .ColorForeground none =>
      .ok { self with color_foreground := default_state.color_foreground }
  | .ColorForeground (some c) => .ok { self with color_foreground := c }
  | .Font none => .ok { self with font := default_state.font }
  | .Font (some f) => .ok { self with font := f }
  | .JustificationLine jl =>
      .ok { self with just_line := jl.getD default_state.just_line }
  | .JustificationPage jp =>
      .ok { self with just_page := jp.getD default_state.just_page }
  | .NewLine none => .ok { self with line_spacing := none }
  | .NewLine (some ls) =>
      if !self.is_full_matrix then
        .error .UnsupportedTagValue
      else
        .ok { self with line_spacing := some ls }
  | .PageBackground none =>
      .ok { self with page_background := default_state.page_background }
  | .PageBackground (some c) => .ok { self with page_background := c }
  | .PageTime t_on t_off =>
      .ok { self with
            page_on_time_ds := t_on.getD default_state.page_on_time_ds
            page_off_time_ds := t_off.getD default_state.page_off_time_ds }
  | .SpacingCharacter sc =>
      if self.is_char_matrix then
        .error (.UnsupportedTag "sc")
      else
        .ok { self with char_spacing := some sc }
  | .SpacingCharacterEnd => .ok { self with char_spacing := none }
  | .TextRectangle r => self.update_text_rectangle default_state r
  | .Text _ => .ok self
  | v => .error (.UnsupportedTag v.toString)

/-- Modelled from the spec: an RGBA pixel value (four channels). -/
def RGBA : Type := Nat × Nat × Nat × Nat

instance : DecidableEq RGBA := by
  unfold RGBA
  infer_instance

/-- Modelled from the spec: the external `raster` module's pixel buffer
(width × height pixels, row-major). -/
structure Raster where
  width : Nat
  height : Nat
  pixels : List RGBA
deriving DecidableEq

/-- Modelled from the spec: `Raster::new(width, height, rgba)` allocates
a `width × height` buffer with every pixel pre-filled with `rgba`. -/
def Raster.new (w h : Nat) (clr : RGBA) : Raster :=
  { width := w, height := h, pixels := List.replicate (w * h) clr }

/-- Page renderer (`PageRenderer` of `render.rs`): one page's state
snapshot plus its ordered content list. -/
structure PageRenderer where
  render_state : RenderState
  values : List Value
deriving DecidableEq

/-- Create a new page renderer (`PageRenderer::new`). -/
def PageRenderer.new (render_state : RenderState) (values : List Value) :
    PageRenderer :=
  { render_state := render_state, values := values }

/-- Render the page (`PageRenderer::render`).  The color resolver
(`Color::rgb`, in the external `multi` module, not in `src/`) is passed
as the parameter `rgb`.  The source resolves the page background,
allocates the buffer pre-filled with it at alpha 0, and returns it; the
layout pass over `values` is absent from the source (a commented-out
`FIXME` block), so the content list is never consulted. -/
def PageRenderer.render (self : PageRenderer)
    (rgb : Color → ColorScheme → Option (Nat × Nat × Nat)) :
    Except SyntaxError Raster :=
  let w := self.render_state.text_rectangle.w
  let h := self.render_state.text_rectangle.h
  match rgb self.render_state.page_background self.render_state.color_scheme with
  | none => .error .Other
  | some clr => .ok (Raster.new w h (clr.1, clr.2.1, clr.2.2, 0))

/-- Page splitter (`PageSplitter` of `render.rs`).  The external
`Parser` is modelled by the list of its outputs: each element is either
a lexical error or a token. -/
structure PageSplitter where
  default_state : RenderState
  render_state : RenderState
  tokens : List (Except SyntaxError Value)
  more : Bool

/-- Create a new page splitter (`PageSplitter::new`): both states start
as the given default state and `more` is set. -/
def PageSplitter.new (render_state : RenderState)
    (tokens : List (Except SyntaxError Value)) : PageSplitter :=
  { default_state := render_state, render_state := render_state
    tokens := tokens, more := true }

/-- The page-start state (`PageSplitter::page_state` body): a copy of
the running render state with text rectangle and line spacing set back
to the default state's values. -/
def pageStateOf (default_state render_state : RenderState) : RenderState :=
  { render_state with
    text_rectangle := default_state.text_rectangle
    line_spacing := default_state.line_spacing }

/-- Get the current page state (`PageSplitter::page_state`). -/
def PageSplitter.page_state (self : PageSplitter) : RenderState :=
  pageStateOf self.default_state self.render_state

instance {ε α : Type} [DecidableEq ε] [DecidableEq α] :
    DecidableEq (Except ε α) := fun a b =>
  match a, b with
  | .ok x, .ok y =>
      if h : x = y then isTrue (by rw [h]) else isFalse (by simp [h])
  | .error x, .error y =>
      if h : x = y then isTrue (by rw [h]) else isFalse (by simp [h])
  | .ok _, .error _ => isFalse (by simp)
  | .error _, .ok _ => isFalse (by simp)

/-- Outcome of the token-consuming loop of `PageSplitter::make_page`:
the running render state after the loop, the tokens left in the parser,
the final `more` flag, and the page's content list or the first error. -/
structure LoopOut where
  rs : RenderState
  remaining : List (Except SyntaxError Value)
  more : Bool
  result : Except SyntaxError (List Value)
deriving DecidableEq

/-- The `while let Some(t) = self.parser.next()` loop of
`PageSplitter::make_page`: a lexical error or a failing `update` stops
the scan with that error (`more` stays false); a page-break token stops
it with `more` set; otherwise the token is applied to the running state
and appended to the content accumulator. -/
def makePageLoop (default_state : RenderState) :
    RenderState → List Value → List (Except SyntaxError Value) → LoopOut
  | rs, acc, [] =>
      { rs := rs, remaining := [], more := false, result := .ok acc.reverse }
  | rs, _, .error e :: ts =>
      { rs := rs, remaining := ts, more := false, result := .error e }
  | rs, acc, .ok v :: ts =>
      if isNewPage v then
        { rs := rs, remaining := ts, more := true, result := .ok acc.reverse }
      else
        match rs.update default_state v with
        | .error e =>
            { rs := rs, remaining := ts, more := false, result := .error e }
        | .ok rs' => makePageLoop default_state rs' (v :: acc) ts

/-- Make the next page (`PageSplitter::make_page`): run the loop from
the current state, then copy the page-scoped page background and on/off
times from the post-scan running state into the page-start snapshot. -/
def PageSplitter.make_page (self : PageSplitter) :
    PageSplitter × Except SyntaxError PageRenderer :=
  let ps := pageStateOf self.default_state self.render_state
  let out := makePageLoop self.default_state self.render_state [] self.tokens
  ({ default_state := self.default_state, render_state := out.rs
     tokens := out.remaining, more := out.more },
   out.result.map (fun values =>
     PageRenderer.new
       { ps with
         page_background := out.rs.page_background
         page_on_time_ds := out.rs.page_on_time_ds
         page_off_time_ds := out.rs.page_off_time_ds }
       values))

/-- One `Iterator::next` step of the page splitter: a page (or error)
while `more` is set, `None` afterwards. -/
def PageSplitter.next (self : PageSplitter) :
    Option (Except SyntaxError PageRenderer) × PageSplitter :=
  if self.more then
    let p := self.make_page
    (some p.2, p.1)
  else
    (none, self)

/-- Fuel-indexed iteration of the splitter; `PageSplitter.run` supplies
enough fuel for the loop to reach exhaustion, so the fuel is a totality
device only. -/
def PageSplitter.runFuel : Nat → PageSplitter → List (Except SyntaxError PageRenderer)
  | 0, _ => []
  | fuel + 1, s =>
      if s.more then
        let p := s.make_page
        p.2 :: PageSplitter.runFuel fuel p.1
      else
        []

/-- Iterate the page splitter to exhaustion, collecting every item its
`next` yields (the `collect()` of the source's tests). -/
def PageSplitter.run (s : PageSplitter) : List (Except SyntaxError PageRenderer) :=
  PageSplitter.runFuel (s.tokens.length + 1) s

/-- Fold `RenderState::update` over a token list, stopping at the first
error: the cumulative validation of a page's (non-boundary) tokens. -/
def applyAll (default_state : RenderState) :
    RenderState → List Value → Except SyntaxError RenderState
  | rs, [] => .ok rs
  | rs, v :: vs =>
      match rs.update default_state v with
      | .error e => .error e
      | .ok rs' => applyAll default_state rs' vs

/-- No token of the stream fails validation: every non-page-break token
is accepted by `RenderState.update` on the running state, in stream
order (page-break tokens are consumed by the splitter itself, never
validated). -/
def validStream (default_state : RenderState) :
    RenderState → List Value → Bool
  | _, [] => true
  | rs, v :: vs =>
      if isNewPage v then
        validStream default_state rs vs
      else
        match rs.update default_state v with
        | .error _ => false
        | .ok rs' => validStream default_state rs' vs

/-- The full-matrix device profile of the source's tests
(`make_full_matrix`). -/
def fullMatrix : RenderState :=
  RenderState.new .Monochrome1Bit (.Legacy 1) (.Legacy 0) 20 0
    { x := 1, y := 1, w := 60, h := 30 } .Top .Left 0 0 (1, none)

/-- The character-matrix device profile of the source's tests
(`make_char_matrix`): 5 × 7 character cells. -/
def charMatrix : RenderState :=
  RenderState.new .Monochrome1Bit (.Legacy 1) (.Legacy 0) 20 0
    { x := 1, y := 1, w := 100, h := 21 } .Top .Left 5 7 (1, none)

/-- A line-matrix device profile: variable-pitch columns
(`char_width = 0`) but a fixed 7-pixel line height. -/
def lineMatrix : RenderState :=
  RenderState.new .Monochrome1Bit (.Legacy 1) (.Legacy 0) 20 0
    { x := 1, y := 1, w := 100, h := 21 } .Top .Left 0 7 (1, none)

/-- A constant color resolver, used to instantiate theorems that are
parametric in the external resolver. -/
def rgbConst : Color → ColorScheme → Option (Nat × Nat × Nat) :=
  fun _ _ => some (1, 2, 3)

example : (PageSplitter.new fullMatrix []).run.length = 1 := by decide

example :
    (PageSplitter.new fullMatrix [.ok (.Text "1")]).run.length = 1 := by
  decide

example :
    (PageSplitter.new fullMatrix [.ok .NewPage]).run.length = 2 := by decide

example :
    (PageSplitter.new fullMatrix
      [.ok (.Text "1"), .ok .NewPage, .ok (.Text "2"), .ok .NewPage]
    ).run.length = 3 := by decide

example :
    (charMatrix.update charMatrix
      (.TextRectangle { x := 1, y := 1, w := 12, h := 12 })) =
    .error .UnsupportedTagValue := by decide

example :
    (charMatrix.update charMatrix
      (.TextRectangle { x := 1, y := 1, w := 50, h := 12 })) =
    .error .UnsupportedTagValue := by decide

example :
    (charMatrix.update charMatrix
      (.TextRectangle { x := 1, y := 1, w := 50, h := 14 })) =
    .ok { charMatrix with text_rectangle := { x := 1, y := 1, w := 50, h := 14 } } := by
  decide

/-- The attribute-propagation scenario of the source's
`page_full_matrix` test, as a token list. -/
def propagationTokens : List (Except SyntaxError Value) :=
  [.ok (.PageTime (some 10) (some 2)),
   .ok (.ColorBackground (some (.Legacy 9))),
   .ok (.PageBackground (some (.Legacy 5))),
   .ok (.ColorForeground (some (.Legacy 3))),
   .ok (.JustificationPage (some .Middle)),
   .ok (.JustificationLine (some .Right)),
   .ok (.TextRectangle { x := 1, y := 1, w := 10, h := 10 }),
   .ok (.NewLine (some 4)),
   .ok (.Font (some (3, some 0x1234))),
   .ok (.SpacingCharacter 2),
   .ok .NewPage,
   .ok (.PageBackground none),
   .ok (.PageTime none none),
   .ok (.ColorBackground none),
   .ok .SpacingCharacterEnd]

example :
    (PageSplitter.new fullMatrix propagationTokens).run =
    [.ok (PageRenderer.new
      { fullMatrix with
        page_background := .Legacy 5
        page_on_time_ds := 10
        page_off_time_ds := 2 }
      [.PageTime (some 10) (some 2), .ColorBackground (some (.Legacy 9)),
       .PageBackground (some (.Legacy 5)), .ColorForeground (some (.Legacy 3)),
       .JustificationPage (some .Middle), .JustificationLine (some .Right),
       .TextRectangle { x := 1, y := 1, w := 10, h := 10 }, .NewLine (some 4),
       .Font (some (3, some 0x1234)), .SpacingCharacter 2]),
     .ok (PageRenderer.new
      { fullMatrix with
        color_foreground := .Legacy 3
        color_background := .Legacy 9
        just_page := .Middle
        just_line := .Right
        char_spacing := some 2
        font := (3, some 0x1234) }
      [.PageBackground none, .PageTime none none, .ColorBackground none,
       .SpacingCharacterEnd])] := by
  decide

lemma isNewPage_iff {v : Value} : isNewPage v = true ↔ v = .NewPage := by
  cases v <;> simp [isNewPage]

lemma Rectangle.contains_refl (r : Rectangle) : r.contains r = true := by
  simp [Rectangle.contains]

/-- Successful updates preserve the device configuration fields and
either keep the text rectangle or replace it by one contained in the
default state's text rectangle. -/
lemma update_fields_inv {s ds s' : RenderState} {v : Value}
    (h : s.update ds v = .ok s') :
    (s'.color_scheme = s.color_scheme ∧ s'.char_width = s.char_width ∧
     s'.char_height = s.char_height) ∧
    (s'.text_rectangle = s.text_rectangle ∨
     ds.text_rectangle.contains s'.text_rectangle = true) := by
  cases v with
  | ColorBackground o =>
      cases o <;> simp only [RenderState.update, Except.ok.injEq] at h <;>
        subst h <;> exact ⟨⟨rfl, rfl, rfl⟩, Or.inl rfl⟩
  | ColorForeground o =>
      cases o <;> simp only [RenderState.update, Except.ok.injEq] at h <;>
        subst h <;> exact ⟨⟨rfl, rfl, rfl⟩, Or.inl rfl⟩
  | Font o =>
      cases o <;> simp only [RenderState.update, Except.ok.injEq] at h <;>
        subst h <;> exact ⟨⟨rfl, rfl, rfl⟩, Or.inl rfl⟩
  | JustificationLine o =>
      simp only [RenderState.update, Except.ok.injEq] at h
      subst h
      exact ⟨⟨rfl, rfl, rfl⟩, Or.inl rfl⟩
  | JustificationPage o =>
      simp only [RenderState.update, Except.ok.injEq] at h
      subst h
      exact ⟨⟨rfl, rfl, rfl⟩, Or.inl rfl⟩
  | NewLine o =>
      cases o with
      | none =>
          simp only [RenderState.update, Except.ok.injEq] at h
          subst h
          exact ⟨⟨rfl, rfl, rfl⟩, Or.inl rfl⟩
      | some ls =>
          simp only [RenderState.update] at h
          split at h
          · exact absurd h (by simp)
          · simp only [Except.ok.injEq] at h
            subst h
            exact ⟨⟨rfl, rfl, rfl⟩, Or.inl rfl⟩
  | PageBackground o =>
      cases o <;> simp only [RenderState.update, Except.ok.injEq] at h <;>
        subst h <;> exact ⟨⟨rfl, rfl, rfl⟩, Or.inl rfl⟩
  | PageTime t_on t_off =>
      simp only [RenderState.update, Except.ok.injEq] at h
      subst h
      exact ⟨⟨rfl, rfl, rfl⟩, Or.inl rfl⟩
  | SpacingCharacter sc =>
      simp only [RenderState.update] at h
      split at h
      · exact absurd h (by simp)
      · simp only [Except.ok.injEq] at h
        subst h
        exact ⟨⟨rfl, rfl, rfl⟩, Or.inl rfl⟩
  | SpacingCharacterEnd =>
      simp only [RenderState.update, Except.ok.injEq] at h
      subst h
      exact ⟨⟨rfl, rfl, rfl⟩, Or.inl rfl⟩
  | TextRectangle r =>
      simp only [RenderState.update, RenderState.update_text_rectangle] at h
      split at h
      · exact absurd h (by simp)
      · next hcont =>
          split at h
          · exact absurd h (by simp)
          · split at h
            · exact absurd h (by simp)
            · simp only [Except.ok.injEq] at h
              subst h
              refine ⟨⟨rfl, rfl, rfl⟩, Or.inr ?_⟩
              simpa using hcont
  | Text t =>
      simp only [RenderState.update, Except.ok.injEq] at h
      subst h
      exact ⟨⟨rfl, rfl, rfl⟩, Or.inl rfl⟩
  | NewPage => exact absurd h (by simp [RenderState.update])
  | Flash => exact absurd h (by simp [RenderState.update])
  | HexadecimalCharacter n => exact absurd h (by simp [RenderState.update])
  | ManufacturerSpecific m => exact absurd h (by simp [RenderState.update])

/-- States reachable from the device default state `ds` by any sequence
of successful `update` applications (with `ds` as the default state, as
the splitter always passes it) and page-splitter steps: the page-start
reset (`page_state`) and the page-scoped field copy-back of
`make_page`. -/
inductive ReachableState (ds : RenderState) : RenderState → Prop where
  | init : ReachableState ds ds
  | update_step {rs rs' : RenderState} {v : Value} :
      ReachableState ds rs → rs.update ds v = .ok rs' → ReachableState ds rs'
  | page_step {rs : RenderState} :
      ReachableState ds rs → ReachableState ds (pageStateOf ds rs)
  | snapshot_step {rs rs' : RenderState} :
      ReachableState ds rs → ReachableState ds rs' →
      ReachableState ds
        { rs with
          page_background := rs'.page_background
          page_on_time_ds := rs'.page_on_time_ds
          page_off_time_ds := rs'.page_off_time_ds }

/-- C9: in every render state reachable from the device defaults by
successful update applications and page-splitter steps, the active text
rectangle is contained in the default state's text rectangle. -/
theorem C9_text_rectangle_invariant (ds rs : RenderState)
    (h : ReachableState ds rs) :
    ds.text_rectangle.contains rs.text_rectangle = true := by
  induction h with
  | init => exact Rectangle.contains_refl ds.text_rectangle
  | update_step _ hu ih =>
      rcases (update_fields_inv hu).2 with he | hc
      · rw [he]; exact ih
      · exact hc
  | page_step _ _ => exact Rectangle.contains_refl ds.text_rectangle
  | snapshot_step _ _ ih _ => exact ih

theorem C9_text_rectangle_invariant_witness :
    fullMatrix.text_rectangle.contains fullMatrix.text_rectangle = true :=
  C9_text_rectangle_invariant fullMatrix fullMatrix ReachableState.init

/-- C10: a successful `update` never changes the color scheme or the
character cell dimensions; a failing `update` performs its checks
before any assignment and thus leaves the state unchanged, which this
embedding expresses by returning no state on error. -/
theorem C10_update_preserves_device_config (s ds : RenderState) (v : Value)
    (s' : RenderState) (h : s.update ds v = .ok s') :
    s'.color_scheme = s.color_scheme ∧ s'.char_width = s.char_width ∧
    s'.char_height = s.char_height :=
  (update_fields_inv h).1

theorem C10_update_preserves_device_config_witness :
    fullMatrix.color_scheme = fullMatrix.color_scheme ∧
    fullMatrix.char_width = fullMatrix.char_width ∧
    fullMatrix.char_height = fullMatrix.char_height :=
  C10_update_preserves_device_config fullMatrix fullMatrix (.Text "x")
    fullMatrix (by decide)

/-- C3: every page starts from `page_state` — a copy of the running
render state whose text rectangle and explicit line spacing are reset
to the default state's values, every other attribute carried over
unchanged from the running state. -/
theorem C3_page_state_resets_rect_and_spacing (s : PageSplitter) :
    s.page_state.text_rectangle = s.default_state.text_rectangle ∧
    s.page_state.line_spacing = s.default_state.line_spacing ∧
    s.page_state.color_scheme = s.render_state.color_scheme ∧
    s.page_state.color_foreground = s.render_state.color_foreground ∧
    s.page_state.color_background = s.render_state.color_background ∧
    s.page_state.page_background = s.render_state.page_background ∧
    s.page_state.page_on_time_ds = s.render_state.page_on_time_ds ∧
    s.page_state.page_off_time_ds = s.render_state.page_off_time_ds ∧
    s.page_state.just_page = s.render_state.just_page ∧
    s.page_state.just_line = s.render_state.just_line ∧
    s.page_state.char_spacing = s.render_state.char_spacing ∧
    s.page_state.char_width = s.render_state.char_width ∧
    s.page_state.char_height = s.render_state.char_height ∧
    s.page_state.font = s.render_state.font :=
  ⟨rfl, rfl, rfl, rfl, rfl, rfl, rfl, rfl, rfl, rfl, rfl, rfl, rfl, rfl⟩

/-- C4: the state snapshot of every page `make_page` yields records the
page background and the page on/off times of the running render state
as it stands after all of the page's tokens have been applied (the
running state of the successor splitter). -/
theorem C4_page_scoped_fields_from_final_state (s : PageSplitter)
    (p : PageRenderer) (h : s.make_page.2 = .ok p) :
    p.render_state.page_background =
      s.make_page.1.render_state.page_background ∧
    p.render_state.page_on_time_ds =
      s.make_page.1.render_state.page_on_time_ds ∧
    p.render_state.page_off_time_ds =
      s.make_page.1.render_state.page_off_time_ds := by
  rcases hres : (makePageLoop s.default_state s.render_state [] s.tokens).result
    with e | values
  · exfalso
    simp only [PageSplitter.make_page, hres, Except.map] at h
    exact absurd h (by simp)
  · simp only [PageSplitter.make_page, hres, Except.map, Except.ok.injEq] at h
    subst h
    exact ⟨rfl, rfl, rfl⟩

theorem C4_page_scoped_fields_from_final_state_witness :
    (PageRenderer.new fullMatrix []).render_state.page_background =
      (PageSplitter.new fullMatrix []).make_page.1.render_state.page_background ∧
    (PageRenderer.new fullMatrix []).render_state.page_on_time_ds =
      (PageSplitter.new fullMatrix []).make_page.1.render_state.page_on_time_ds ∧
    (PageRenderer.new fullMatrix []).render_state.page_off_time_ds =
      (PageSplitter.new fullMatrix []).make_page.1.render_state.page_off_time_ds :=
  C4_page_scoped_fields_from_final_state (PageSplitter.new fullMatrix [])
    (PageRenderer.new fullMatrix []) (by decide)

/-- The failure condition for a `[tr…]` tag as the claim states it: the
rectangle escapes the default text rectangle, or a nonzero character
cell width leaves `x − 1` or the width unaligned, or a nonzero
character cell height leaves `y − 1` or the height unaligned. -/
def textRectangleViolation (s ds : RenderState) (r : Rectangle) : Prop :=
  ds.text_rectangle.contains r = false ∨
  (s.char_width ≠ 0 ∧
    ((r.x - 1) % s.char_width ≠ 0 ∨ r.w % s.char_width ≠ 0)) ∨
  (s.char_height ≠ 0 ∧
    ((r.y - 1) % s.char_height ≠ 0 ∨ r.h % s.char_height ≠ 0))

/-- C5: a `TextRectangle` update fails with `UnsupportedTagValue`
exactly under `textRectangleViolation`, and otherwise succeeds with the
new rectangle active (coordinate bounds keep `Nat` arithmetic aligned
with the source's `u16` arithmetic). -/
theorem C5_update_text_rectangle_iff (s ds : RenderState) (r : Rectangle)
    (hx1 : 1 ≤ r.x) (hx2 : r.x ≤ 65535) (hy1 : 1 ≤ r.y) (hy2 : r.y ≤ 65535) :
    (s.update ds (.TextRectangle r) = .error .UnsupportedTagValue ↔
      textRectangleViolation s ds r) ∧
    (¬ textRectangleViolation s ds r →
      s.update ds (.TextRectangle r) = .ok { s with text_rectangle := r }) := by
  have hwx : wrapSub1 r.x = r.x - 1 := by unfold wrapSub1; omega
  have hwy : wrapSub1 r.y = r.y - 1 := by unfold wrapSub1; omega
  unfold textRectangleViolation
  simp only [RenderState.update, RenderState.update_text_rectangle, hwx, hwy]
  by_cases h1 : ds.text_rectangle.contains r = true <;>
    by_cases h2 : s.char_width ≠ 0 ∧
      ((r.x - 1) % s.char_width ≠ 0 ∨ r.w % s.char_width ≠ 0) <;>
    by_cases h3 : s.char_height ≠ 0 ∧
      ((r.y - 1) % s.char_height ≠ 0 ∨ r.h % s.char_height ≠ 0) <;>
    simp [h1, h2, h3, Nat.pos_iff_ne_zero]

theorem C5_update_text_rectangle_iff_witness :
    ((charMatrix.update charMatrix
        (.TextRectangle { x := 1, y := 1, w := 50, h := 14 }) =
          .error .UnsupportedTagValue ↔
      textRectangleViolation charMatrix charMatrix
        { x := 1, y := 1, w := 50, h := 14 }) ∧
    (¬ textRectangleViolation charMatrix charMatrix
        { x := 1, y := 1, w := 50, h := 14 } →
      charMatrix.update charMatrix
        (.TextRectangle { x := 1, y := 1, w := 50, h := 14 }) =
        .ok { charMatrix with
              text_rectangle := { x := 1, y := 1, w := 50, h := 14 } })) :=
  C5_update_text_rectangle_iff charMatrix charMatrix
    { x := 1, y := 1, w := 50, h := 14 }
    (by decide) (by decide) (by decide) (by decide)

/-- C6 counterexample: on a line-matrix sign (cell width zero, cell
height nonzero — not a full matrix) a `SpacingCharacter` override is
accepted, contradicting the claim that spacing overrides are accepted
only when both cell dimensions are zero and fail with `UnsupportedTag`
on any nonzero-cell matrix. -/
theorem C6_spacing_counterexample :
    (lineMatrix.char_width = 0 ∧ lineMatrix.char_height = 7) ∧
    lineMatrix.update lineMatrix (.SpacingCharacter 2) =
      .ok { lineMatrix with char_spacing := some 2 } := by
  decide

/-- C6 amended: an explicit line-spacing override (`NewLine` with a
value) is accepted exactly when both cell dimensions are zero (full
matrix), failing with `UnsupportedTagValue` otherwise; a
character-spacing override (`SpacingCharacter`) is accepted exactly
when the cell width is zero, failing with `UnsupportedTag` on
character-matrix signs (nonzero cell width). -/
theorem C6_spacing_overrides_amended (s ds : RenderState) (n : Nat) :
    (s.update ds (.NewLine (some n)) =
      if s.char_width = 0 ∧ s.char_height = 0 then
        .ok { s with line_spacing := some n }
      else .error .UnsupportedTagValue) ∧
    (s.update ds (.SpacingCharacter n) =
      if s.char_width = 0 then .ok { s with char_spacing := some n }
      else .error (.UnsupportedTag "sc")) := by
  constructor
  · by_cases h : s.char_width = 0 ∧ s.char_height = 0
    · simp [RenderState.update, RenderState.is_full_matrix, h.1, h.2, h]
    · have hb : s.is_full_matrix = false := by
        simp only [RenderState.is_full_matrix]
        rcases Decidable.not_and_iff_or_not.mp h with hw | hh
        · simp [hw]
        · simp [hh, Bool.and_eq_false_iff]
      simp [RenderState.update, hb, h]
  · by_cases h : s.char_width = 0
    · simp [RenderState.update, RenderState.is_char_matrix, h]
    · simp [RenderState.update, RenderState.is_char_matrix, h,
        Nat.pos_iff_ne_zero]

/-- C7: when the color resolver maps the page state's background under
the active scheme, `render` returns a buffer whose dimensions are the
text rectangle's width and height with every pixel pre-filled with the
resolved RGB at alpha 0; when the resolver cannot map it, `render`
fails with the generic `Other` error.  The resolver (external to this
core) is the parameter `rgb`. -/
theorem C7_render_background_buffer (p : PageRenderer)
    (rgb : Color → ColorScheme → Option (Nat × Nat × Nat)) :
    (∀ r g b,
      rgb p.render_state.page_background p.render_state.color_scheme =
        some (r, g, b) →
      p.render rgb = .ok (Raster.new p.render_state.text_rectangle.w
          p.render_state.text_rectangle.h (r, g, b, 0)) ∧
      (Raster.new p.render_state.text_rectangle.w
          p.render_state.text_rectangle.h (r, g, b, 0)).width =
        p.render_state.text_rectangle.w ∧
      (Raster.new p.render_state.text_rectangle.w
          p.render_state.text_rectangle.h (r, g, b, 0)).height =
        p.render_state.text_rectangle.h ∧
      (Raster.new p.render_state.text_rectangle.w
          p.render_state.text_rectangle.h (r, g, b, 0)).pixels =
        List.replicate
          (p.render_state.text_rectangle.w * p.render_state.text_rectangle.h)
          (r, g, b, 0)) ∧
    (rgb p.render_state.page_background p.render_state.color_scheme = none →
      p.render rgb = .error .Other) := by
  constructor
  · intro r g b h
    refine ⟨?_, rfl, rfl, rfl⟩
    simp only [PageRenderer.render, h]
  · intro h
    simp only [PageRenderer.render, h]

theorem C7_render_background_buffer_witness :
    (PageRenderer.new fullMatrix []).render rgbConst =
      .ok (Raster.new 60 30 (1, 2, 3, 0)) ∧
    (Raster.new 60 30 (1, 2, 3, 0)).width = 60 ∧
    (Raster.new 60 30 (1, 2, 3, 0)).height = 30 ∧
    (Raster.new 60 30 (1, 2, 3, 0)).pixels =
      List.replicate (60 * 30) (1, 2, 3, 0) :=
  (C7_render_background_buffer (PageRenderer.new fullMatrix []) rgbConst).1
    1 2 3 rfl

/-- C8 (code bug): the source's `render` never consults the page's
content list — the layout pass over `values` is a commented-out `FIXME`
block — so two pages sharing a state but differing in content render to
identical buffers, contradicting the claim that the content is painted. -/
theorem C8_render_ignores_content :
    (PageRenderer.new fullMatrix [Value.Text "A"]).render rgbConst =
      (PageRenderer.new fullMatrix []).render rgbConst ∧
    (PageRenderer.new fullMatrix [Value.Text "A"]).render rgbConst =
      .ok (Raster.new 60 30 (1, 2, 3, 0)) :=
  ⟨rfl, rfl⟩

/-- The loop only consumes tokens, and stops strictly inside the list
whenever it reports that more pages follow. -/
lemma makePageLoop_remaining (ds : RenderState) :
    ∀ (ts : List (Except SyntaxError Value)) (rs : RenderState)
      (acc : List Value),
    (makePageLoop ds rs acc ts).remaining.length ≤ ts.length ∧
    ((makePageLoop ds rs acc ts).more = true →
      (makePageLoop ds rs acc ts).remaining.length < ts.length) := by
  intro ts
  induction ts with
  | nil => intro rs acc; simp [makePageLoop]
  | cons t ts ih =>
      intro rs acc
      cases t with
      | error e =>
          simp only [makePageLoop, List.length_cons]
          exact ⟨by omega, by simp⟩
      | ok v =>
          by_cases hnp : isNewPage v
          · simp only [makePageLoop, hnp, if_true, List.length_cons]
            exact ⟨by omega, fun _ => by omega⟩
          · simp only [makePageLoop, hnp, Bool.false_eq_true, if_false]
            cases hu : rs.update ds v with
            | error e =>
                simp only [List.length_cons]
                exact ⟨by omega, by simp⟩
            | ok rs' =>
                have h := ih rs' (v :: acc)
                simp only [List.length_cons]
                exact ⟨by omega, fun _ => by omega⟩

/-- A splitter whose `more` flag is cleared yields nothing at any fuel. -/
lemma runFuel_not_more {f : Nat} {s : PageSplitter} (h : s.more = false) :
    PageSplitter.runFuel f s = [] := by
  cases f <;> simp [PageSplitter.runFuel, h]

/-- The fuel does not matter once it exceeds the token count. -/
lemma runFuel_congr :
    ∀ (f₁ f₂ : Nat) (s : PageSplitter), s.tokens.length < f₁ →
      s.tokens.length < f₂ →
      PageSplitter.runFuel f₁ s = PageSplitter.runFuel f₂ s := by
  intro f₁
  induction f₁ with
  | zero => intro f₂ s h1 _; omega
  | succ f ih =>
      intro f₂ s h1 h2
      cases f₂ with
      | zero => omega
      | succ f₂' =>
          by_cases hm : s.more
          · simp only [PageSplitter.runFuel, hm, if_true]
            congr 1
            have hrem := makePageLoop_remaining s.default_state s.tokens
              s.render_state []
            by_cases hm' : s.make_page.1.more
            · have hlt : s.make_page.1.tokens.length < s.tokens.length :=
                hrem.2 hm'
              exact ih f₂' s.make_page.1 (by omega) (by omega)
            · have hf : s.make_page.1.more = false := by simpa using hm'
              rw [runFuel_not_more hf, runFuel_not_more hf]
          · simp [PageSplitter.runFuel, hm]

/-- Unfolding equation for `run`: one `next` step while `more` is set. -/
lemma run_eq (s : PageSplitter) :
    s.run = if s.more then s.make_page.2 :: s.make_page.1.run else [] := by
  by_cases hm : s.more
  · rw [if_pos hm]
    have h1 : s.run =
        s.make_page.2 :: PageSplitter.runFuel s.tokens.length s.make_page.1 := by
      unfold PageSplitter.run
      simp [PageSplitter.runFuel, hm]
    rw [h1]
    congr 1
    have h2 : s.make_page.1.run =
        PageSplitter.runFuel (s.make_page.1.tokens.length + 1) s.make_page.1 :=
      rfl
    rw [h2]
    have hrem := makePageLoop_remaining s.default_state s.tokens
      s.render_state []
    by_cases hm' : s.make_page.1.more
    · have hlt : s.make_page.1.tokens.length < s.tokens.length := hrem.2 hm'
      exact runFuel_congr s.tokens.length (s.make_page.1.tokens.length + 1)
        s.make_page.1 (by omega) (by omega)
    · have hf : s.make_page.1.more = false := by simpa using hm'
      rw [runFuel_not_more hf, runFuel_not_more hf]
  · rw [if_neg hm]
    unfold PageSplitter.run
    exact runFuel_not_more (by simpa using hm)

/-- On a stream with no validation failures the loop either consumes
everything with no page break seen, or stops at the first page break
with a strictly shorter, still-valid remainder. -/
lemma makePageLoop_valid (ds : RenderState) :
    ∀ (vs : List Value) (rs : RenderState) (acc : List Value),
    validStream ds rs vs = true →
    ((makePageLoop ds rs acc (vs.map .ok)).more = false ∧
     (makePageLoop ds rs acc (vs.map .ok)).remaining = [] ∧
     vs.count Value.NewPage = 0) ∨
    (∃ rest : List Value,
      (makePageLoop ds rs acc (vs.map .ok)).more = true ∧
      (makePageLoop ds rs acc (vs.map .ok)).remaining = rest.map .ok ∧
      validStream ds (makePageLoop ds rs acc (vs.map .ok)).rs rest = true ∧
      vs.count Value.NewPage = 1 + rest.count Value.NewPage ∧
      rest.length < vs.length) := by
  intro vs
  induction vs with
  | nil =>
      intro rs acc _
      left
      simp [makePageLoop]
  | cons v vs ih =>
      intro rs acc hval
      by_cases hnp : isNewPage v
      · have hv : v = Value.NewPage := isNewPage_iff.mp hnp
        subst hv
        right
        refine ⟨vs, ?_, ?_, ?_, ?_, ?_⟩
        · simp [makePageLoop, isNewPage]
        · simp [makePageLoop, isNewPage]
        · have hval' : validStream ds rs vs = true := by
            simpa [validStream, isNewPage] using hval
          simpa [makePageLoop, isNewPage] using hval'
        · rw [List.count_cons_self]
          omega
        · simp
      · have hnp' : isNewPage v = false := by simpa using hnp
        have hvne : v ≠ Value.NewPage := by
          intro hh
          rw [hh] at hnp'
          simp [isNewPage] at hnp'
        simp only [validStream, hnp', Bool.false_eq_true, if_false] at hval
        cases hu : rs.update ds v with
        | error e =>
            rw [hu] at hval
            simp at hval
        | ok rs' =>
            rw [hu] at hval
            have hloop : makePageLoop ds rs acc ((v :: vs).map .ok) =
                makePageLoop ds rs' (v :: acc) (vs.map .ok) := by
              simp [makePageLoop, hnp', hu]
            rcases ih rs' (v :: acc) hval with ⟨h1, h2, h3⟩ |
              ⟨rest, h1, h2, h3, h4, h5⟩
            · left
              rw [hloop]
              refine ⟨h1, h2, ?_⟩
              simp [List.count_cons, hvne, h3]
            · right
              refine ⟨rest, ?_, ?_, ?_, ?_, ?_⟩
              · rw [hloop]; exact h1
              · rw [hloop]; exact h2
              · rw [hloop]; exact h3
              · simp [List.count_cons, hvne, h4]
              · simp only [List.length_cons]
                omega

/-- Page count of a fully valid stream, by strong induction on a bound
for the stream length. -/
lemma run_count (ds : RenderState) :
    ∀ (n : Nat) (vs : List Value) (rs : RenderState), vs.length < n →
    validStream ds rs vs = true →
    (PageSplitter.mk ds rs (vs.map .ok) true).run.length =
      1 + vs.count Value.NewPage := by
  intro n
  induction n with
  | zero =>
      intro vs rs h _
      omega
  | succ n ih =>
      intro vs rs hlen hval
      rw [run_eq]
      have hm : (PageSplitter.mk ds rs (vs.map .ok) true).more = true := rfl
      rw [if_pos hm]
      simp only [List.length_cons]
      rcases makePageLoop_valid ds vs rs [] hval with ⟨hm', hrem, hcnt⟩ |
        ⟨rest, hm', hrem, hval', hcnt, hlt⟩
      · have hf : (PageSplitter.mk ds rs (vs.map .ok) true).make_page.1.more
            = false := hm'
        rw [run_eq, if_neg (by simp [hf])]
        simp [hcnt]
      · have hp : (PageSplitter.mk ds rs (vs.map .ok) true).make_page.1 =
            PageSplitter.mk ds (makePageLoop ds rs [] (vs.map .ok)).rs
              (rest.map .ok) true := by
          show PageSplitter.mk ds (makePageLoop ds rs [] (vs.map .ok)).rs
              (makePageLoop ds rs [] (vs.map .ok)).remaining
              (makePageLoop ds rs [] (vs.map .ok)).more = _
          rw [hrem, hm']
        rw [hp, ih rest (makePageLoop ds rs [] (vs.map .ok)).rs (by omega) hval']
        omega

/-- C1: on any token stream on which no token fails validation, the
splitter run to exhaustion yields `1 + (number of page-break tokens)`
pages — in particular exactly one page for the empty stream — and the
page-break tag is matched case-insensitively: all four case spellings
of "np" map to the page-break token. -/
theorem C1_page_count (ds : RenderState) (vs : List Value)
    (h : validStream ds ds vs = true) :
    (PageSplitter.new ds (vs.map Except.ok)).run.length =
      1 + vs.count Value.NewPage ∧
    (matchPageBreakTag "np" = some Value.NewPage ∧
     matchPageBreakTag "Np" = some Value.NewPage ∧
     matchPageBreakTag "nP" = some Value.NewPage ∧
     matchPageBreakTag "NP" = some Value.NewPage) :=
  ⟨run_count ds (vs.length + 1) vs ds (by omega) h,
   by decide, by decide, by decide, by decide⟩

theorem C1_page_count_witness :
    ((PageSplitter.new fullMatrix
        ([Value.Text "1", Value.NewPage, Value.Text "2",
          Value.NewPage].map Except.ok)).run.length =
      1 + [Value.Text "1", Value.NewPage, Value.Text "2",
          Value.NewPage].count Value.NewPage) ∧
    (matchPageBreakTag "np" = some Value.NewPage ∧
     matchPageBreakTag "Np" = some Value.NewPage ∧
     matchPageBreakTag "nP" = some Value.NewPage ∧
     matchPageBreakTag "NP" = some Value.NewPage) :=
  C1_page_count fullMatrix
    [Value.Text "1", Value.NewPage, Value.Text "2", Value.NewPage] (by decide)

/-- A page-break-free prefix whose tokens all validate is consumed by
the loop exactly as `applyAll` describes. -/
lemma makePageLoop_applyAll (ds : RenderState) :
    ∀ (pre : List Value) (rs rs' : RenderState) (acc : List Value)
      (ts : List (Except SyntaxError Value)),
    pre.count Value.NewPage = 0 →
    applyAll ds rs pre = .ok rs' →
    makePageLoop ds rs acc (pre.map .ok ++ ts) =
      makePageLoop ds rs' (pre.reverse ++ acc) ts := by
  intro pre
  induction pre with
  | nil =>
      intro rs rs' acc ts _ happ
      simp only [applyAll, Except.ok.injEq] at happ
      subst happ
      simp
  | cons v pre ih =>
      intro rs rs' acc ts hcnt happ
      have hvne : v ≠ Value.NewPage := by
        intro hh
        subst hh
        rw [List.count_cons_self] at hcnt
        omega
      have hnp' : isNewPage v = false := by
        cases hiv : isNewPage v
        · rfl
        · exact absurd (isNewPage_iff.mp hiv) hvne
      have hcnt' : pre.count Value.NewPage = 0 := by
        rw [List.count_cons] at hcnt
        omega
      simp only [applyAll] at happ
      cases hu : rs.update ds v with
      | error e =>
          rw [hu] at happ
          simp at happ
      | ok rs2 =>
          rw [hu] at happ
          have hstep : makePageLoop ds rs acc ((v :: pre).map .ok ++ ts) =
              makePageLoop ds rs2 (v :: acc) (pre.map .ok ++ ts) := by
            simp [makePageLoop, hnp', hu]
          rw [hstep, ih rs2 rs' (v :: acc) ts hcnt' happ]
          simp

/-- C2: when the stream's first invalid token `v` sits after a valid,
page-break-free prefix of the current page, the splitter step reached
at that token yields exactly that token's validation error, the `more`
flag is cleared, and `next` thereafter returns `None` forever (its
state is a fixed point), so no further pages — valid or not — are ever
produced.  Quantifying over the starting running state covers errors
occurring on any later page as well. -/
theorem C2_error_fail_fast (ds rs rs' : RenderState) (pre post : List Value)
    (v : Value) (e : SyntaxError)
    (hpre : pre.count Value.NewPage = 0)
    (hv : v ≠ Value.NewPage)
    (happ : applyAll ds rs pre = .ok rs')
    (herr : rs'.update ds v = .error e) :
    (PageSplitter.mk ds rs ((pre ++ v :: post).map Except.ok) true).run =
      [.error e] ∧
    (PageSplitter.mk ds rs
        ((pre ++ v :: post).map Except.ok) true).make_page.1.more = false ∧
    (PageSplitter.mk ds rs
        ((pre ++ v :: post).map Except.ok) true).make_page.1.next =
      (none,
       (PageSplitter.mk ds rs
         ((pre ++ v :: post).map Except.ok) true).make_page.1) := by
  have hnp' : isNewPage v = false := by
    cases hiv : isNewPage v
    · rfl
    · exact absurd (isNewPage_iff.mp hiv) hv
  have hloop : makePageLoop ds rs [] ((pre ++ v :: post).map .ok) =
      { rs := rs', remaining := post.map .ok, more := false
        result := .error e } := by
    rw [List.map_append]
    rw [makePageLoop_applyAll ds pre rs rs' [] ((v :: post).map .ok) hpre happ]
    simp [makePageLoop, hnp', herr]
  have hmp : (PageSplitter.mk ds rs
        ((pre ++ v :: post).map Except.ok) true).make_page =
      (PageSplitter.mk ds rs' (post.map Except.ok) false, Except.error e) := by
    simp only [PageSplitter.make_page, hloop, Except.map]
  refine ⟨?_, ?_, ?_⟩
  · rw [run_eq, if_pos rfl, hmp]
    have htail : (PageSplitter.mk ds rs' (post.map Except.ok) false).run = [] := by
      rw [run_eq]
      simp
    rw [htail]
  · rw [hmp]
  · rw [hmp]
    simp [PageSplitter.next]

theorem C2_error_fail_fast_witness :
    ((PageSplitter.mk fullMatrix fullMatrix
        (([Value.Text "1"] ++ Value.Flash :: []).map Except.ok) true).run =
      [.error (.UnsupportedTag "[fl]")]) ∧
    (PageSplitter.mk fullMatrix fullMatrix
        (([Value.Text "1"] ++ Value.Flash :: []).map Except.ok)
        true).make_page.1.more = false ∧
    (PageSplitter.mk fullMatrix fullMatrix
        (([Value.Text "1"] ++ Value.Flash :: []).map Except.ok)
        true).make_page.1.next =
      (none,
       (PageSplitter.mk fullMatrix fullMatrix
         (([Value.Text "1"] ++ Value.Flash :: []).map Except.ok)
         true).make_page.1) :=
  C2_error_fail_fast fullMatrix fullMatrix fullMatrix [Value.Text "1"] []
    Value.Flash (.UnsupportedTag "[fl]") (by decide) (by decide) (by decide)
    (by decide)
